import Mathlib

/-!
Shallow embedding of the Music Sonar application (src/app.py).

The program records streamed audio, batches it into fixed windows,
submits each window to the ACRCloud recognition endpoint, renders the
outcome in the UI, appends successes to a JSON history file, and asks a
hosted language model for artist information.

External effects (the HTTP POST, JSON decoding of the response, the
history file, the model call, the clock) are passed in explicitly as
parameters; Python exceptions are modelled with an explicit `Except`
layer so that the try/except structure of the source is visible.
-/

/-- Python exceptions that the source can raise internally; `str` mirrors
Python `str(e)` for each kind. -/
inductive PyError where
  | keyError (k : String)
  | indexError
  | jsonDecodeError (msg : String)
  | requestException (msg : String)
  | ioError (msg : String)
deriving DecidableEq

/-- `str(e)` for each modelled exception; a Python `KeyError` prints the
key in quotes, an `IndexError` on a list prints `list index out of range`. -/
def PyError.str : PyError → String
  | PyError.keyError k => "\x27" ++ k ++ "\x27"
  | PyError.indexError => "list index out of range"
  | PyError.jsonDecodeError m => m
  | PyError.requestException m => m
  | PyError.ioError m => m

/-- A value in the multipart form `data` dict (`None` values included). -/
inductive FormValue where
  | str (s : String)
  | nat (n : Nat)
  | null
deriving DecidableEq

/-- The fixed recognition endpoint (src/app.py line 92). -/
def acrUrl : String := "http://identify-eu-west-1.acrcloud.com/v1/identify"

/-- The `data` dict of the multipart POST built by `recognize_song`
(src/app.py line 93): access key, data type, sample rate and audio
format only. -/
def acrRequestData (ACR_ACCESS_KEY : Option String) : List (String × FormValue) :=
  [("access_key", match ACR_ACCESS_KEY with
      | none => FormValue.null
      | some k => FormValue.str k),
   ("data_type", FormValue.str "audio"),
   ("sample_rate", FormValue.nat 44100),
   ("audio_format", FormValue.str "mp3")]

/-- One artist object inside the provider JSON. -/
structure AcrArtist where
  name : Option String
deriving DecidableEq

/-- The album object inside the provider JSON. -/
structure AcrAlbum where
  name : Option String
deriving DecidableEq

/-- One music match inside the provider JSON. -/
structure AcrMusic where
  title : Option String
  artists : Option (List AcrArtist)
  album : Option AcrAlbum
deriving DecidableEq

/-- The `status` object of the provider JSON. -/
structure AcrStatus where
  code : Int
  msg : String
deriving DecidableEq

/-- The `metadata` object of the provider JSON. -/
structure AcrMetadata where
  music : Option (List AcrMusic)
deriving DecidableEq

/-- The decoded provider JSON body; absent keys are `none`. -/
structure AcrJson where
  status : Option AcrStatus
  metadata : Option AcrMetadata
deriving DecidableEq

/-- The HTTP response of the POST: status code plus the outcome of
`response.json()`, which raises on a malformed body. -/
structure HttpResponse where
  status_code : Nat
  json : Except PyError AcrJson

/-- The success dictionary built by `recognize_song`
(keys Song, Artist, Album, Recognition Date). -/
structure SongData where
  song : String
  artist : String
  album : String
  recognitionDate : String
deriving DecidableEq

/-- The dictionary returned by `recognize_song`: either the song data or
a dict with an `error` key. -/
inductive RecResult where
  | ok (d : SongData)
  | error (msg : String)
deriving DecidableEq

/-- `song_info.get("artists", [{}])[0].get("name", "Unknown")`
(src/app.py line 107): an absent key defaults to one empty artist dict,
a present but empty list raises `IndexError`. -/
def artistNameOf : Option (List AcrArtist) → Except PyError String
  | none => Except.ok "Unknown"
  | some [] => Except.error PyError.indexError
  | some (a :: _) => Except.ok (a.name.getD "Unknown")

/-- `song_info.get("album", {}).get("name", "Unknown")` (src/app.py line 108). -/
def albumNameOf : Option AcrAlbum → String
  | none => "Unknown"
  | some alb => alb.name.getD "Unknown"

/-- The body of the `try` block of `recognize_song` (src/app.py lines
91 to 112), with the POST outcome and the clock passed in. An
`Except.error` is an exception escaping the block; an `Except.ok` is the
dictionary the block returns. -/
def recognizeSongTry (postResult : Except PyError HttpResponse) (now : String) :
    Except PyError RecResult :=
  match postResult with
  | Except.error e => Except.error e
  | Except.ok response =>
    if response.status_code ≠ 200 then
      Except.ok (RecResult.error ("API Error: " ++ toString response.status_code))
    else
      match response.json with
      | Except.error e => Except.error e
      | Except.ok result =>
        match result.status with
        | none => Except.error (PyError.keyError "status")
        | some st =>
          if st.code ≠ 0 then
            Except.ok (RecResult.error st.msg)
          else
            match result.metadata with
            | none => Except.ok (RecResult.error "Could not recognize the song")
            | some md =>
              match md.music with
              | none => Except.ok (RecResult.error "Could not recognize the song")
              | some [] => Except.error PyError.indexError
              | some (song_info :: _) =>
                match artistNameOf song_info.artists with
                | Except.error e => Except.error e
                | Except.ok artist =>
                  Except.ok (RecResult.ok
                    { song := song_info.title.getD "Unknown",
                      artist := artist,
                      album := albumNameOf song_info.album,
                      recognitionDate := now })

/-- The environment `save_to_history` interacts with: whether the history
file exists, what `json.load` yields on it, and whether the write fails. -/
structure HistoryEnv where
  fileExists : Bool
  loadResult : Except PyError (List SongData)
  writeFails : Bool

/-- The pure insert and truncate step of `save_to_history` (src/app.py
lines 128 to 130): insert at position 0, then cut to the first 50 when
the list exceeds 50 entries. -/
def saveToHistoryList (history : List SongData) (song_data : SongData) : List SongData :=
  if (song_data :: history).length > 50 then (song_data :: history).take 50
  else song_data :: history

/-- The body of the `try` block of `save_to_history` (src/app.py lines
122 to 132): load the file when it exists (may raise), insert and
truncate, then write (may raise). -/
def saveToHistoryCore (env : HistoryEnv) (song_data : SongData) :
    Except PyError (List SongData) :=
  match (if env.fileExists then env.loadResult else Except.ok []) with
  | Except.error e => Except.error e
  | Except.ok history =>
    if env.writeFails then Except.error (PyError.ioError "write failed")
    else Except.ok (saveToHistoryList history song_data)

/-- `save_to_history` (src/app.py lines 116 to 134): every exception of
the body is caught and only logged. Returns the new file content when
the save succeeded, and the logged error message otherwise. -/
def save_to_history (env : HistoryEnv) (song_data : SongData) :
    Option (List SongData) × Option String :=
  match saveToHistoryCore env song_data with
  | Except.ok h => (some h, none)
  | Except.error e => (none, some ("Error saving to history: " ++ PyError.str e))

/-- The observable outcome of one `recognize_song` call: the form data of
the POST when one was attempted, the returned dictionary, and the effect
on the history file. -/
structure RecognizeOutcome where
  sentRequest : Option (List (String × FormValue))
  result : RecResult
  historyWritten : Option (List SongData)
  historyLog : Option String
deriving DecidableEq

/-- `recognize_song` (src/app.py lines 76 to 114). Reads both credential
environment variables (the secret is never used), checks the input file,
and runs the guarded body; any exception becomes the generic error dict.
On success `save_to_history` runs before the dictionary is returned. -/
def recognize_song (ACR_ACCESS_KEY ACR_SECRET_KEY : Option String) (fileExists : Bool)
    (postResult : Except PyError HttpResponse) (now : String) (env : HistoryEnv) :
    RecognizeOutcome :=
  if ¬ fileExists then
    { sentRequest := none, result := RecResult.error "The audio file does not exist",
      historyWritten := none, historyLog := none }
  else
    match recognizeSongTry postResult now with
    | Except.error e =>
      { sentRequest := some (acrRequestData ACR_ACCESS_KEY),
        result := RecResult.error ("Error processing audio: " ++ PyError.str e),
        historyWritten := none, historyLog := none }
    | Except.ok (RecResult.error m) =>
      { sentRequest := some (acrRequestData ACR_ACCESS_KEY),
        result := RecResult.error m,
        historyWritten := none, historyLog := none }
    | Except.ok (RecResult.ok song_data) =>
      { sentRequest := some (acrRequestData ACR_ACCESS_KEY),
        result := RecResult.ok song_data,
        historyWritten := (save_to_history env song_data).1,
        historyLog := (save_to_history env song_data).2 }

/-- The language prompt templates of `get_artist_info` (src/app.py lines
149 to 153). -/
def artistPrompts (artist_name song_name : String) : List (String × String) :=
  [("en", "Provide details about \x27" ++ artist_name ++
      "\x27. Include biography, fun facts, and about \x27" ++ song_name ++
      "\x27 if available."),
   ("es", "Proporciona detalles sobre \x27" ++ artist_name ++
      "\x27. Incluye biografía, datos curiosos y sobre \x27" ++ song_name ++
      "\x27 si está disponible."),
   ("fr", "Fournissez des détails sur \x27" ++ artist_name ++
      "\x27. Incluez biographie, anecdotes et sur \x27" ++ song_name ++
      "\x27 si disponible.")]

/-- The prompt sent by `get_artist_info`: the template for the requested
language, falling back to English (src/app.py lines 154 to 155). -/
def artistPromptFor (artist_name song_name language : String) : String :=
  match (artistPrompts artist_name song_name).lookup language with
  | some p => p
  | none =>
    match (artistPrompts artist_name song_name).lookup "en" with
    | some p => p
    | none => ""

/-- `get_artist_info` (src/app.py lines 136 to 160): returns the raw
model reply, or the fallback string when the model call raises. -/
def get_artist_info (artist_name song_name language : String)
    (modelResponse : Except PyError String) : String :=
  match modelResponse with
  | Except.ok content => content
  | Except.error e => "Could not retrieve info: " ++ PyError.str e

/-- `sample_rate` (src/app.py line 171). -/
def sample_rate : Nat := 44100

/-- `buffer_duration` in seconds (src/app.py line 170). -/
def buffer_duration : Nat := 10

/-- The formatted string the stream handler emits after a flush
(src/app.py lines 194 to 199): song banner plus artist info on success,
one fixed message on any error dict. -/
def flushOutput (result : RecResult) (modelResponse : Except PyError String) : String :=
  match result with
  | RecResult.ok d =>
    "🎵 **" ++ d.song ++ "** by " ++ d.artist ++ "\n\n" ++
      get_artist_info d.artist d.song "en" modelResponse
  | RecResult.error _ => "No match yet, keep playing..."

/-- The observable outcome of one `process_audio_stream` call: the buffer
left behind, whether a flush (encode, recognize, delete) happened,
whether the temporary file was deleted, and the returned text. -/
structure StreamStepResult where
  buffer : List Int
  flushed : Bool
  tmpDeleted : Bool
  output : String
deriving DecidableEq

/-- `process_audio_stream` (src/app.py lines 173 to 200): extend the
buffer with the chunk; when its length reaches
`sample_rate * buffer_duration`, write the temporary file, recognize,
delete the file, clear the buffer and format the result; below the
threshold just report progress. The recognition result and the model
reply stand in for the two external calls made during a flush. -/
def process_audio_stream (audio_buffer chunk : List Int) (recResult : RecResult)
    (modelResponse : Except PyError String) : StreamStepResult :=
  if (audio_buffer ++ chunk).length ≥ sample_rate * buffer_duration then
    { buffer := [], flushed := true, tmpDeleted := true,
      output := flushOutput recResult modelResponse }
  else
    { buffer := audio_buffer ++ chunk, flushed := false, tmpDeleted := false,
      output := "Processing..." }

/-- Feeding `n` single samples through `process_audio_stream` starting
from an empty buffer; returns the remaining buffer and the number of
flushes triggered. -/
def streamSampleSteps : Nat → Int → RecResult → Except PyError String → List Int × Nat
  | 0, _, _, _ => ([], 0)
  | n + 1, x, r, m =>
    ((process_audio_stream (streamSampleSteps n x r m).1 [x] r m).buffer,
     (streamSampleSteps n x r m).2 +
       (if (process_audio_stream (streamSampleSteps n x r m).1 [x] r m).flushed
        then 1 else 0))

/- Concrete fixtures used by witnesses and counterexamples. -/

/-- A provider match for a well-known song. -/
def siGood : AcrMusic :=
  { title := some "Bohemian Rhapsody",
    artists := some [{ name := some "Queen" }],
    album := some { name := some "A Night at the Opera" } }

/-- A fully successful provider response. -/
def respGood : HttpResponse :=
  { status_code := 200,
    json := Except.ok { status := some { code := 0, msg := "Success" },
                        metadata := some { music := some [siGood] } } }

/-- HTTP 200, status code 0, but an empty music match list. -/
def respEmptyMusic : HttpResponse :=
  { status_code := 200,
    json := Except.ok { status := some { code := 0, msg := "Success" },
                        metadata := some { music := some [] } } }

/-- HTTP 200, status code 0, but no metadata key at all. -/
def respNoMetadata : HttpResponse :=
  { status_code := 200,
    json := Except.ok { status := some { code := 0, msg := "Success" },
                        metadata := none } }

/-- HTTP 200 with a body that is not valid JSON. -/
def respBadJson : HttpResponse :=
  { status_code := 200,
    json := Except.error (PyError.jsonDecodeError "Expecting value: line 1 column 1 (char 0)") }

/-- A history environment where everything succeeds on a fresh file. -/
def envOk : HistoryEnv :=
  { fileExists := false, loadResult := Except.ok [], writeFails := false }

/-- A history environment whose existing file holds malformed JSON. -/
def envBadFile : HistoryEnv :=
  { fileExists := true,
    loadResult := Except.error (PyError.jsonDecodeError "Expecting value: line 1 column 1 (char 0)"),
    writeFails := false }

/-- A sample history entry. -/
def dSample : SongData :=
  { song := "Song A", artist := "Artist A", album := "Album A",
    recognitionDate := "2026-10-12 00:00:00" }

/-- A history environment whose file exists, loads one entry, and accepts
the write. -/
def envLoaded : HistoryEnv :=
  { fileExists := true, loadResult := Except.ok [dSample], writeFails := false }

/-- The artist field `recognize_song` extracts when the `artists` list is
absent or nonempty (the two non-raising shapes). -/
def artistNameOk : Option (List AcrArtist) → String
  | some (a :: _) => a.name.getD "Unknown"
  | _ => "Unknown"

/- Helper lemmas. -/

/-- When the extended buffer reaches the window threshold the handler
flushes: empty buffer, temporary file deleted, formatted output. -/
theorem process_audio_stream_ge (buf chunk : List Int) (r : RecResult)
    (m : Except PyError String)
    (h : (buf ++ chunk).length ≥ sample_rate * buffer_duration) :
    process_audio_stream buf chunk r m =
      { buffer := [], flushed := true, tmpDeleted := true,
        output := flushOutput r m } := by
  unfold process_audio_stream
  rw [if_pos h]

/-- Below the window threshold the handler only accumulates. -/
theorem process_audio_stream_lt (buf chunk : List Int) (r : RecResult)
    (m : Except PyError String)
    (h : (buf ++ chunk).length < sample_rate * buffer_duration) :
    process_audio_stream buf chunk r m =
      { buffer := buf ++ chunk, flushed := false, tmpDeleted := false,
        output := "Processing..." } := by
  unfold process_audio_stream
  rw [if_neg (not_le.mpr h)]

/-- Feeding samples one at a time: the buffer holds the remainder modulo
the window size and the flush count is the number of full windows. -/
theorem streamSampleSteps_spec (n : Nat) (x : Int) (r : RecResult)
    (m : Except PyError String) :
    (streamSampleSteps n x r m).1.length = n % (sample_rate * buffer_duration) ∧
    (streamSampleSteps n x r m).2 = n / (sample_rate * buffer_duration) := by
  induction n with
  | zero => simp [streamSampleSteps]
  | succ k ih =>
    obtain ⟨ih1, ih2⟩ := ih
    have hT : sample_rate * buffer_duration = 441000 := rfl
    have hlen : ((streamSampleSteps k x r m).1 ++ [x]).length
        = k % (sample_rate * buffer_duration) + 1 := by simp [ih1]
    have hmod : k % 441000 < 441000 := Nat.mod_lt k (by norm_num)
    by_cases hc : k % (sample_rate * buffer_duration) + 1
        ≥ sample_rate * buffer_duration
    · have hstep := process_audio_stream_ge (streamSampleSteps k x r m).1 [x] r m
        (by rw [hlen]; exact hc)
      rw [hT] at hc
      constructor
      · simp only [streamSampleSteps]
        rw [hstep]
        simp only [List.length_nil, hT]
        omega
      · simp only [streamSampleSteps]
        rw [hstep]
        simp only [if_true, ih2, hT]
        omega
    · have hc2 : ((streamSampleSteps k x r m).1 ++ [x]).length
          < sample_rate * buffer_duration := by rw [hlen]; omega
      have hstep := process_audio_stream_lt (streamSampleSteps k x r m).1 [x] r m hc2
      rw [hT] at hc
      constructor
      · simp only [streamSampleSteps]
        rw [hstep]
        simp only [hlen, hT]
        omega
      · simp only [streamSampleSteps]
        rw [hstep]
        simp only [Bool.false_eq_true, if_false, ih2, hT]
        omega

/-- One save step never leaves more than 50 entries. -/
theorem saveToHistoryList_length_le (history : List SongData) (e : SongData) :
    (saveToHistoryList history e).length ≤ 50 := by
  unfold saveToHistoryList
  by_cases hl : (e :: history).length > 50
  · rw [if_pos hl]
    simp [List.length_take]
  · rw [if_neg hl]
    simp only [List.length_cons] at hl ⊢
    omega

/-- Folding saves keeps the bound once it holds. -/
theorem foldl_save_length (entries : List SongData) (acc : List SongData)
    (hacc : acc.length ≤ 50) :
    (entries.foldl saveToHistoryList acc).length ≤ 50 := by
  induction entries generalizing acc with
  | nil => simpa using hacc
  | cons e rest ih => exact ih (saveToHistoryList acc e) (saveToHistoryList_length_le acc e)

/-- One save step is the front of insert-at-zero: the saved list plus a
dropped tail reproduces the inserted list. -/
theorem saveToHistoryList_front (history : List SongData) (e : SongData) :
    ∃ rest, e :: history = saveToHistoryList history e ++ rest := by
  unfold saveToHistoryList
  by_cases hl : (e :: history).length > 50
  · rw [if_pos hl]
    exact ⟨(e :: history).drop 50, (List.take_append_drop 50 (e :: history)).symm⟩
  · rw [if_neg hl]
    exact ⟨[], by simp⟩

/-- Newest-first ordering: after any sequence of saves the stored list is
an initial segment of the saves in reverse order followed by the start. -/
theorem foldl_save_newest (entries : List SongData) (start : List SongData) :
    ∃ rest, entries.reverse ++ start = entries.foldl saveToHistoryList start ++ rest := by
  induction entries generalizing start with
  | nil => exact ⟨[], by simp⟩
  | cons e es ih =>
    obtain ⟨r0, hr0⟩ := saveToHistoryList_front start e
    obtain ⟨r1, hr1⟩ := ih (saveToHistoryList start e)
    refine ⟨r1 ++ r0, ?_⟩
    calc (e :: es).reverse ++ start
        = es.reverse ++ (e :: start) := by simp
      _ = es.reverse ++ (saveToHistoryList start e ++ r0) := by rw [← hr0]
      _ = (es.reverse ++ saveToHistoryList start e) ++ r0 := by
            rw [List.append_assoc]
      _ = (es.foldl saveToHistoryList (saveToHistoryList start e) ++ r1) ++ r0 := by
            rw [hr1]
      _ = (e :: es).foldl saveToHistoryList start ++ (r1 ++ r0) := by
            simp [List.append_assoc]

/-- When the guarded body returns a dictionary, `recognize_song` returns
exactly that dictionary. -/
theorem recognize_song_result_of_ok (ak sk : Option String)
    (p : Except PyError HttpResponse) (now : String) (env : HistoryEnv)
    (r : RecResult) (h : recognizeSongTry p now = Except.ok r) :
    (recognize_song ak sk true p now env).result = r := by
  cases r <;> simp [recognize_song, h]

/-- When the guarded body raises, `recognize_song` returns the generic
error dictionary. -/
theorem recognize_song_result_of_error (ak sk : Option String)
    (p : Except PyError HttpResponse) (now : String) (env : HistoryEnv)
    (e : PyError) (h : recognizeSongTry p now = Except.error e) :
    (recognize_song ak sk true p now env).result
      = RecResult.error ("Error processing audio: " ++ PyError.str e) := by
  simp [recognize_song, h]

/-- The returned dictionary depends on neither credential nor on the
history environment. -/
theorem recognize_song_result_indep (ak1 sk1 ak2 sk2 : Option String) (fe : Bool)
    (p : Except PyError HttpResponse) (now : String) (env1 env2 : HistoryEnv) :
    (recognize_song ak1 sk1 fe p now env1).result
      = (recognize_song ak2 sk2 fe p now env2).result := by
  cases fe with
  | false => rfl
  | true =>
    cases h : recognizeSongTry p now with
    | error e => simp [recognize_song, h]
    | ok r => cases r <;> simp [recognize_song, h]

/-- Whenever the input file exists the multipart POST is attempted, with
the form data built from the access key alone. -/
theorem recognize_song_sends (ak sk : Option String)
    (p : Except PyError HttpResponse) (now : String) (env : HistoryEnv) :
    (recognize_song ak sk true p now env).sentRequest = some (acrRequestData ak) := by
  cases h : recognizeSongTry p now with
  | error e => simp [recognize_song, h]
  | ok r => cases r <;> simp [recognize_song, h]

/- Claim theorems. -/

/-- Claim C1 counterexample: the request `recognize_song` builds carries
no signature and no timestamp field at all, and the whole observable
outcome of a call is unchanged when the secret credential changes — so
no HMAC-SHA1 signature string keyed by the secret is computed or
attached, and the output does not differ when that input differs. -/
theorem c1_counterexample :
    ¬ ("signature" ∈ (acrRequestData (some "key")).map Prod.fst) ∧
    ¬ ("timestamp" ∈ (acrRequestData (some "key")).map Prod.fst) ∧
    recognize_song (some "key") (some "secretA") true (Except.ok respGood)
        "2026-10-12 00:00:00" envOk
      = recognize_song (some "key") (some "secretB") true (Except.ok respGood)
        "2026-10-12 00:00:00" envOk :=
  ⟨by decide, by decide, rfl⟩

/-- Claim C1 (amended): the recognition client computes no signature.
The multipart POST carries exactly the fields access_key, data_type,
sample_rate and audio_format beside the sample; the secret credential is
read but never used, so every observable of the call is invariant under
changing it. -/
theorem c1_no_signature (ak sk1 sk2 : Option String) (fe : Bool)
    (p : Except PyError HttpResponse) (now : String) (env : HistoryEnv) :
    (acrRequestData ak).map Prod.fst
      = ["access_key", "data_type", "sample_rate", "audio_format"] ∧
    recognize_song ak sk1 fe p now env = recognize_song ak sk2 fe p now env :=
  ⟨by simp [acrRequestData], rfl⟩

/-- Claim C2: the buffering step flushes exactly when the accumulated
buffer reaches `sample_rate * buffer_duration` samples, deleting the
temporary file and resetting the buffer length to 0; below the threshold
no flush happens and the buffer only grows; and over a stream of single
samples the number of flushes is exactly one per window of
`sample_rate * buffer_duration` accumulated samples. -/
theorem c2_flush_policy (buf chunk : List Int) (r : RecResult)
    (m : Except PyError String) (n : Nat) (x : Int) :
    ((buf ++ chunk).length ≥ sample_rate * buffer_duration →
      (process_audio_stream buf chunk r m).flushed = true ∧
      (process_audio_stream buf chunk r m).buffer.length = 0 ∧
      (process_audio_stream buf chunk r m).tmpDeleted = true) ∧
    ((buf ++ chunk).length < sample_rate * buffer_duration →
      (process_audio_stream buf chunk r m).flushed = false ∧
      (process_audio_stream buf chunk r m).buffer = buf ++ chunk ∧
      (process_audio_stream buf chunk r m).tmpDeleted = false) ∧
    (streamSampleSteps n x r m).2 = n / (sample_rate * buffer_duration) ∧
    (streamSampleSteps n x r m).1.length = n % (sample_rate * buffer_duration) := by
  refine ⟨fun h => ?_, fun h => ?_,
    (streamSampleSteps_spec n x r m).2, (streamSampleSteps_spec n x r m).1⟩
  · rw [process_audio_stream_ge buf chunk r m h]
    exact ⟨rfl, rfl, rfl⟩
  · rw [process_audio_stream_lt buf chunk r m h]
    exact ⟨rfl, rfl, rfl⟩

/-- Claim C2 witness: a full window of samples triggers the flush and
clears the buffer. -/
theorem c2_flush_policy_witness :
    (process_audio_stream [] (List.replicate (sample_rate * buffer_duration) 0)
        (RecResult.error "e") (Except.ok "")).flushed = true ∧
    (process_audio_stream [] (List.replicate (sample_rate * buffer_duration) 0)
        (RecResult.error "e") (Except.ok "")).buffer.length = 0 :=
  ⟨((c2_flush_policy [] (List.replicate (sample_rate * buffer_duration) 0)
      (RecResult.error "e") (Except.ok "") 0 0).1 (by simp)).1,
   ((c2_flush_policy [] (List.replicate (sample_rate * buffer_duration) 0)
      (RecResult.error "e") (Except.ok "") 0 0).1 (by simp)).2.1⟩

/-- Claim C3: after any nonempty sequence of saves the history holds at
most 50 entries and is an initial segment of the saves newest-first
followed by the previous content; and a successful `save_to_history`
call persists exactly the insert-at-front-then-truncate of the loaded
list. -/
theorem c3_history_capped (start entries : List SongData) (env : HistoryEnv)
    (hist : List SongData) (d : SongData) (h : entries ≠ []) :
    (entries.foldl saveToHistoryList start).length ≤ 50 ∧
    (∃ rest, entries.reverse ++ start
        = entries.foldl saveToHistoryList start ++ rest) ∧
    (env.fileExists = true → env.loadResult = Except.ok hist →
      env.writeFails = false →
      save_to_history env d = (some (saveToHistoryList hist d), none)) := by
  refine ⟨?_, foldl_save_newest entries start, ?_⟩
  · obtain ⟨e, es, rfl⟩ := List.exists_cons_of_ne_nil h
    exact foldl_save_length es (saveToHistoryList start e)
      (saveToHistoryList_length_le start e)
  · intro he hl hw
    simp [save_to_history, saveToHistoryCore, he, hl, hw]

/-- Claim C3 witness: one save on an empty start stays within the cap and
a concrete successful save persists the inserted list. -/
theorem c3_history_capped_witness :
    ([dSample].foldl saveToHistoryList []).length ≤ 50 ∧
    save_to_history envLoaded dSample
      = (some (saveToHistoryList [dSample] dSample), none) :=
  ⟨(c3_history_capped [] [dSample] envLoaded [dSample] dSample (by simp)).1,
   (c3_history_capped [] [dSample] envLoaded [dSample] dSample
      (by simp)).2.2 rfl rfl rfl⟩

/-- Claim C4 counterexample: on HTTP 200, status code 0 and an empty
music list, `recognize_song` indexes into the empty list, so the broad
handler returns the generic exception-derived error dictionary, not the
explicit no-match error `Could not recognize the song`. -/
theorem c4_counterexample :
    (recognize_song (some "key") (some "secret") true (Except.ok respEmptyMusic)
        "2026-10-12 00:00:00" envOk).result
      = RecResult.error "Error processing audio: list index out of range" ∧
    RecResult.error "Error processing audio: list index out of range"
      ≠ RecResult.error "Could not recognize the song" :=
  ⟨rfl, by decide⟩

/-- Claim C4 (amended): on HTTP 200 with status code 0 and an empty music
match list the client does not crash but returns the generic error value
derived from the IndexError, `Error processing audio: list index out of
range`; the explicit no-match error `Could not recognize the song` is
returned only when the metadata or music key is absent. -/
theorem c4_empty_match_no_crash (ak sk : Option String) (st : AcrStatus)
    (now : String) (env : HistoryEnv) (h0 : st.code = 0) :
    (recognize_song ak sk true
        (Except.ok { status_code := 200,
                     json := Except.ok { status := some st,
                                         metadata := some { music := some [] } } })
        now env).result
      = RecResult.error "Error processing audio: list index out of range" ∧
    (recognize_song ak sk true
        (Except.ok { status_code := 200,
                     json := Except.ok { status := some st, metadata := none } })
        now env).result
      = RecResult.error "Could not recognize the song" := by
  constructor
  · have htry : recognizeSongTry
        (Except.ok { status_code := 200,
                     json := Except.ok { status := some st,
                                         metadata := some { music := some [] } } }) now
        = Except.error PyError.indexError := by
      simp [recognizeSongTry, h0]
    rw [recognize_song_result_of_error ak sk _ now env PyError.indexError htry]
    rfl
  · have htry : recognizeSongTry
        (Except.ok { status_code := 200,
                     json := Except.ok { status := some st, metadata := none } }) now
        = Except.ok (RecResult.error "Could not recognize the song") := by
      simp [recognizeSongTry, h0]
    rw [recognize_song_result_of_ok ak sk _ now env _ htry]

/-- Claim C4 witness: the amended behavior at a concrete empty-match
response. -/
theorem c4_empty_match_no_crash_witness :
    (recognize_song (some "k") (some "s") true (Except.ok respEmptyMusic)
        "2026-10-12 00:00:00" envOk).result
      = RecResult.error "Error processing audio: list index out of range" :=
  (c4_empty_match_no_crash (some "k") (some "s") { code := 0, msg := "Success" }
      "2026-10-12 00:00:00" envOk rfl).1

/-- Claim C5 counterexample: a provider response with HTTP 200 and JSON
status code 0 whose metadata key is absent yields an error value, not a
title/artist mapping — so the claim as universally stated fails. -/
theorem c5_counterexample :
    respNoMetadata.status_code = 200 ∧
    respNoMetadata.json
      = Except.ok { status := some { code := 0, msg := "Success" },
                    metadata := none } ∧
    (recognize_song (some "key") (some "secret") true (Except.ok respNoMetadata)
        "2026-10-12 00:00:00" envOk).result
      = RecResult.error "Could not recognize the song" :=
  ⟨rfl, rfl, rfl⟩

/-- Claim C5 (amended): on a non-200 HTTP status the client returns an
error carrying the HTTP status code; on HTTP 200 with a nonzero JSON
status code it returns an error carrying the provider message; on HTTP
200 with status code 0 it returns the title/artist/album mapping exactly
when a music match is present and its artists list is absent or
nonempty. -/
theorem c5_response_mapping (ak sk : Option String) (resp : HttpResponse)
    (now : String) (env : HistoryEnv) (j : AcrJson) (st : AcrStatus)
    (md : AcrMetadata) (si : AcrMusic) (tail : List AcrMusic) :
    (resp.status_code ≠ 200 →
      (recognize_song ak sk true (Except.ok resp) now env).result
        = RecResult.error ("API Error: " ++ toString resp.status_code)) ∧
    (resp.status_code = 200 → resp.json = Except.ok j → j.status = some st →
      st.code ≠ 0 →
      (recognize_song ak sk true (Except.ok resp) now env).result
        = RecResult.error st.msg) ∧
    (resp.status_code = 200 → resp.json = Except.ok j → j.status = some st →
      st.code = 0 → j.metadata = some md → md.music = some (si :: tail) →
      si.artists ≠ some [] →
      (recognize_song ak sk true (Except.ok resp) now env).result
        = RecResult.ok { song := si.title.getD "Unknown",
                         artist := artistNameOk si.artists,
                         album := albumNameOf si.album,
                         recognitionDate := now }) := by
  refine ⟨fun h => ?_, fun h200 hj hst hc => ?_, fun h200 hj hst hc hmd hmu ha => ?_⟩
  · apply recognize_song_result_of_ok
    simp [recognizeSongTry, h]
  · apply recognize_song_result_of_ok
    simp [recognizeSongTry, h200, hj, hst, hc]
  · apply recognize_song_result_of_ok
    cases hA : si.artists with
    | none =>
      simp [recognizeSongTry, h200, hj, hst, hc, hmd, hmu, artistNameOf,
        artistNameOk, hA]
    | some l =>
      cases l with
      | nil => exact absurd hA ha
      | cons a as =>
        simp [recognizeSongTry, h200, hj, hst, hc, hmd, hmu, artistNameOf,
          artistNameOk, hA]

/-- Claim C5 witness: the amended mapping at a fully successful concrete
response. -/
theorem c5_response_mapping_witness :
    (recognize_song (some "k") (some "s") true (Except.ok respGood)
        "2026-10-12 00:00:00" envOk).result
      = RecResult.ok { song := "Bohemian Rhapsody", artist := "Queen",
                       album := "A Night at the Opera",
                       recognitionDate := "2026-10-12 00:00:00" } := by
  have h := (c5_response_mapping (some "k") (some "s") respGood
      "2026-10-12 00:00:00" envOk
      { status := some { code := 0, msg := "Success" },
        metadata := some { music := some [siGood] } }
      { code := 0, msg := "Success" } { music := some [siGood] } siGood
      []).2.2 rfl rfl rfl rfl rfl rfl (by decide)
  rw [h]
  rfl

/-- Claim C6: no input makes `recognize_song` propagate an exception —
its outcome is always a returned dictionary — and any exception raised
inside the guarded body (connection error, malformed JSON, missing
status key, empty-list indexing) becomes the generic error-string value
built from `str(e)`. -/
theorem c6_exceptions_become_error_values (ak sk : Option String)
    (p : Except PyError HttpResponse) (now : String) (env : HistoryEnv)
    (e : PyError) (h : recognizeSongTry p now = Except.error e) :
    (recognize_song ak sk true p now env).result
      = RecResult.error ("Error processing audio: " ++ PyError.str e) :=
  recognize_song_result_of_error ak sk p now env e h

/-- Claim C6 witness: malformed provider JSON is caught and surfaced as
the generic error value. -/
theorem c6_exceptions_become_error_values_witness :
    (recognize_song (some "k") (some "s") true (Except.ok respBadJson)
        "2026-10-12 00:00:00" envOk).result
      = RecResult.error
          "Error processing audio: Expecting value: line 1 column 1 (char 0)" := by
  rw [c6_exceptions_become_error_values (some "k") (some "s")
      (Except.ok respBadJson) "2026-10-12 00:00:00" envOk
      (PyError.jsonDecodeError "Expecting value: line 1 column 1 (char 0)") rfl]
  rfl

/-- Claim C7 counterexample: with both credential variables absent (and
the input file present) `recognize_song` neither short-circuits nor
raises at startup: the multipart POST is still attempted, carrying a
null access_key field — a request with a missing credential is sent to
the provider. -/
theorem c7_counterexample :
    (recognize_song none none true (Except.ok respGood) "2026-10-12 00:00:00"
        envOk).sentRequest
      = some (acrRequestData none) ∧
    ("access_key", FormValue.null) ∈ acrRequestData none :=
  ⟨rfl, by decide⟩

/-- Claim C7 (amended): `recognize_song` performs no credential check at
all: with an absent credential the request is still sent, with a null
access_key field, and the returned dictionary never depends on either
credential — missing credentials surface only through the provider
response. -/
theorem c7_no_credential_check (sk ak1 sk1 ak2 sk2 : Option String)
    (p : Except PyError HttpResponse) (now : String) (env : HistoryEnv) :
    (recognize_song none sk true p now env).sentRequest
      = some (acrRequestData none) ∧
    ("access_key", FormValue.null) ∈ acrRequestData none ∧
    (recognize_song ak1 sk1 true p now env).result
      = (recognize_song ak2 sk2 true p now env).result :=
  ⟨recognize_song_sends none sk p now env, by decide,
   recognize_song_result_indep ak1 sk1 ak2 sk2 true p now env env⟩

/-- Claim C8: every error dictionary produced by a flush yields the same
single user-facing message: the whole observable step outcome is equal
across different error kinds and different model replies, and in the
flush case the output is the fixed string. -/
theorem c8_uniform_failure_message (buf chunk : List Int) (e1 e2 : String)
    (m1 m2 : Except PyError String) :
    process_audio_stream buf chunk (RecResult.error e1) m1
      = process_audio_stream buf chunk (RecResult.error e2) m2 ∧
    ((buf ++ chunk).length ≥ sample_rate * buffer_duration →
      (process_audio_stream buf chunk (RecResult.error e1) m1).output
        = "No match yet, keep playing...") := by
  constructor
  · unfold process_audio_stream
    by_cases h : (buf ++ chunk).length ≥ sample_rate * buffer_duration
    · simp only [if_pos h]
      rfl
    · simp only [if_neg h]
  · intro h
    rw [process_audio_stream_ge buf chunk (RecResult.error e1) m1 h]
    rfl

/-- Claim C8 witness: a network-style failure and a no-match failure give
the identical fixed output on a full window. -/
theorem c8_uniform_failure_message_witness :
    (process_audio_stream [] (List.replicate (sample_rate * buffer_duration) 0)
        (RecResult.error "API Error: 500") (Except.ok "")).output
      = "No match yet, keep playing..." :=
  (c8_uniform_failure_message [] (List.replicate (sample_rate * buffer_duration) 0)
      "API Error: 500" "Could not recognize the song" (Except.ok "")
      (Except.ok "")).2 (by simp)

/-- Claim C9: `get_artist_info` returns the raw model reply on success
and the fallback string when the model call raises; it is a total
function, so no exception escapes. -/
theorem c9_enrichment_never_raises (artist_name song_name language content : String)
    (e : PyError) :
    get_artist_info artist_name song_name language (Except.ok content) = content ∧
    get_artist_info artist_name song_name language (Except.error e)
      = "Could not retrieve info: " ++ PyError.str e :=
  ⟨rfl, rfl⟩

/-- Claim C10: `save_to_history` never raises — a failing load, insert or
write only produces a logged message — and the dictionary
`recognize_song` returns is independent of the history environment: a
successful recognition returns the song data unchanged even when
persisting fails. -/
theorem c10_history_failure_isolated (ak sk : Option String)
    (p : Except PyError HttpResponse) (now : String) (env env2 : HistoryEnv)
    (d : SongData) (e : PyError)
    (hok : recognizeSongTry p now = Except.ok (RecResult.ok d))
    (hsave : saveToHistoryCore env d = Except.error e) :
    (recognize_song ak sk true p now env).result = RecResult.ok d ∧
    save_to_history env d
      = (none, some ("Error saving to history: " ++ PyError.str e)) ∧
    (recognize_song ak sk true p now env).result
      = (recognize_song ak sk true p now env2).result := by
  refine ⟨recognize_song_result_of_ok ak sk p now env _ hok, ?_,
    recognize_song_result_indep ak sk ak sk true p now env env2⟩
  simp [save_to_history, hsave]

/-- Claim C10 witness: a successful recognition whose history file holds
malformed JSON still returns the song data, and the save failure is only
logged. -/
theorem c10_history_failure_isolated_witness :
    (recognize_song (some "k") (some "s") true (Except.ok respGood)
        "2026-10-12 00:00:00" envBadFile).result
      = RecResult.ok { song := "Bohemian Rhapsody", artist := "Queen",
                       album := "A Night at the Opera",
                       recognitionDate := "2026-10-12 00:00:00" } ∧
    save_to_history envBadFile
        { song := "Bohemian Rhapsody", artist := "Queen",
          album := "A Night at the Opera",
          recognitionDate := "2026-10-12 00:00:00" }
      = (none, some "Error saving to history: Expecting value: line 1 column 1 (char 0)") := by
  have h := c10_history_failure_isolated (some "k") (some "s")
      (Except.ok respGood) "2026-10-12 00:00:00" envBadFile envOk
      { song := "Bohemian Rhapsody", artist := "Queen",
        album := "A Night at the Opera",
        recognitionDate := "2026-10-12 00:00:00" }
      (PyError.jsonDecodeError "Expecting value: line 1 column 1 (char 0)") rfl rfl
  exact ⟨h.1, h.2.1.trans (by rfl)⟩
